import Mathlib

/-!
# Verification of the Kelp dashboard project-status controller

Shallow embedding of the polling dashboard in the repository's
`Dashboard.jsx` (the `Dashboard` component and its `ProjectCard` children):
the project cache, the `fetchProjects` refresh, the mutating handlers
(`createProject`, `handleFileUpload`, `handleGenerate`, `handleDownload`,
`handleDelete`), the per-card action bar, and the `setInterval`-based
polling schedule.

Conventions of the embedding:
* `localStorage` is modelled by the `token : Option String` field of the
  controller state; `navigate('/login')` by the `route` field;
  `alert(...)` by appending to an `alerts` log.
* Each async handler is a pure function taking the response the server
  gives to the request it awaits (`ApiResult`), and returning the new
  state together with the list of network requests it issued.  A
  `fetchProjects()` fired inside a handler contributes its
  `.getProjects` request to that list; the *resolution* of any in-flight
  `getProjects` is the separate function `fetchProjectsResolve`, so that
  overlapping refreshes can be interleaved explicitly.
* JS falsiness of the possibly-`undefined` `project.files` is modelled by
  a plain list (absent ≡ empty).
-/

/-- Project status strings reported by the backend
(`pending` / `processing` / `completed` / `failed`). -/
inductive Status where
  | pending
  | processing
  | completed
  | failed
deriving DecidableEq, Repr

/-- An attached document (`project.files` element). -/
structure FileDoc where
  id : Nat
  filename : String
  file_type : String
deriving DecidableEq, Repr

/-- A project as mirrored from the server's list response. -/
structure Project where
  id : Nat
  company_name : String
  status : Status
  files : List FileDoc
  sector : Option String
deriving DecidableEq, Repr

/-- Which surface the router currently shows (`navigate` target). -/
inductive Route where
  | dashboard
  | login
deriving DecidableEq, Repr

/-- The dashboard's state: React component state plus the modelled
`localStorage` credential, current route and alert log. -/
structure ControllerState where
  token : Option String
  projects : List Project
  loading : Bool
  newProjectName : String
  showNewProject : Bool
  route : Route
  alerts : List String
deriving DecidableEq, Repr

/-- A network request issued through axios. -/
inductive NetRequest where
  | getProjects
  | postProject (name company website : String)
  | uploadDoc (projectId : Nat)
  | generateReq (projectId : Nat)
  | downloadArtifact (projectId : Nat) (kind : String)
  | deleteReq (projectId : Nat)
deriving DecidableEq, Repr

/-- Outcome of an awaited axios call: success payload, or an error
carrying the HTTP status code when a response exists (`none` = pure
network failure with no response). -/
inductive ApiResult (α : Type) where
  | ok (data : α)
  | err (status : Option Nat)
deriving DecidableEq, Repr

/-- The guard phase of `fetchProjects`: reads the token; with no token it
navigates to login and issues no request, otherwise it issues the GET. -/
def fetchProjectsStart (s : ControllerState) : ControllerState × List NetRequest :=
  match s.token with
  | none => ({ s with route := Route.login }, [])
  | some _ => (s, [NetRequest.getProjects])

/-- Resolution of an in-flight `GET /projects/` from `fetchProjects`:
on success `setProjects(res.data); setLoading(false)`; on a 401 the token
is removed and the router navigates to login; any other failure is only
logged. -/
def fetchProjectsResolve (s : ControllerState) (r : ApiResult (List Project)) :
    ControllerState :=
  match r with
  | ApiResult.ok data => { s with projects := data, loading := false }
  | ApiResult.err code =>
      if code = some 401 then { s with token := none, route := Route.login } else s

/-- One whole `fetchProjects()` call whose request (if issued) is answered
by `r`: the guard phase followed by the resolution. -/
def fetchProjects (s : ControllerState) (r : ApiResult (List Project)) :
    ControllerState × List NetRequest :=
  match s.token with
  | none => ({ s with route := Route.login }, [])
  | some _ => (fetchProjectsResolve s r, [NetRequest.getProjects])

/-- `createProject` handler: `if (!newProjectName) return;` (empty string is
falsy), otherwise POST the new project; on success clear the input, hide
the form and fire `fetchProjects()`; on failure alert. `r` answers the
POST. -/
def createProject (s : ControllerState) (r : ApiResult Unit) :
    ControllerState × List NetRequest :=
  if s.newProjectName = "" then (s, [])
  else
    match r with
    | ApiResult.ok _ =>
        let s1 := { s with newProjectName := "", showNewProject := false }
        let started := fetchProjectsStart s1
        (started.1,
          NetRequest.postProject s.newProjectName s.newProjectName "" :: started.2)
    | ApiResult.err _ =>
        ({ s with alerts := s.alerts ++ ["Failed to create project"] },
          [NetRequest.postProject s.newProjectName s.newProjectName ""])

/-- `handleFileUpload` on a card: no-op without a selected file; otherwise
POST the multipart upload; on success fire `refresh()` (=`fetchProjects`);
on failure alert.  The transient `uploading` flag is set and reset within
the handler, leaving no trace in the resolved state. -/
def handleFileUpload (s : ControllerState) (projectId : Nat) (hasFile : Bool)
    (r : ApiResult Unit) : ControllerState × List NetRequest :=
  if hasFile = false then (s, [])
  else
    match r with
    | ApiResult.ok _ =>
        let started := fetchProjectsStart s
        (started.1, NetRequest.uploadDoc projectId :: started.2)
    | ApiResult.err _ =>
        ({ s with alerts := s.alerts ++ ["Upload failed"] },
          [NetRequest.uploadDoc projectId])

/-- `handleGenerate` on a card: POST `/generate`; on success fire
`refresh()`; on any failure (401 included) only alert. -/
def handleGenerate (s : ControllerState) (projectId : Nat) (r : ApiResult Unit) :
    ControllerState × List NetRequest :=
  match r with
  | ApiResult.ok _ =>
      let started := fetchProjectsStart s
      (started.1, NetRequest.generateReq projectId :: started.2)
  | ApiResult.err _ =>
      ({ s with alerts := s.alerts ++ ["Generation failed"] },
        [NetRequest.generateReq projectId])

/-- The filename passed to the anchor's `download` attribute:
`` `${company_name}_${type === 'ppt' ? 'Teaser' : 'Citations'}.${ext}` ``
with `ext = type === 'ppt' ? 'pptx' : 'pdf'`. -/
def downloadFilename (company ty : String) : String :=
  let ext := if ty = "ppt" then "pptx" else "pdf"
  company ++ "_" ++ (if ty = "ppt" then "Teaser" else "Citations") ++ "." ++ ext

/-- `handleDownload` on a card: GET the artifact blob; on success hand
`downloadFilename` to the save-link mechanism (third component); on
failure alert and save nothing.  No `refresh()` in either branch. -/
def handleDownload (s : ControllerState) (p : Project) (ty : String)
    (r : ApiResult (List Nat)) : ControllerState × List NetRequest × Option String :=
  match r with
  | ApiResult.ok _blob =>
      (s, [NetRequest.downloadArtifact p.id ty],
        some (downloadFilename p.company_name ty))
  | ApiResult.err _ =>
      ({ s with alerts := s.alerts ++ ["Download failed"] },
        [NetRequest.downloadArtifact p.id ty], none)

/-- `handleDelete` on a card: `window.confirm` first (`confirmed`); when
declined nothing happens; when confirmed DELETE the project, on success
fire `refresh()`, on failure alert. -/
def handleDelete (s : ControllerState) (p : Project) (confirmed : Bool)
    (r : ApiResult Unit) : ControllerState × List NetRequest :=
  if confirmed = false then (s, [])
  else
    match r with
    | ApiResult.ok _ =>
        let started := fetchProjectsStart s
        (started.1, NetRequest.deleteReq p.id :: started.2)
    | ApiResult.err _ =>
        ({ s with alerts := s.alerts ++ ["Failed to delete project"] },
          [NetRequest.deleteReq p.id])

/-- The actions a project card can offer in its bottom action bar. -/
inductive CardAction where
  | upload
  | generate
  | downloadTeaser
  | downloadCitations
  | retryGenerate
deriving DecidableEq, Repr

/-- The action bar of `ProjectCard` (the `{/* Actions */}` block): the
controls rendered for each status, each paired with whether it is enabled
(the negation of its `disabled` attribute).  For `pending`, the upload
input carries `disabled={uploading}` and the generate button
`disabled={!project.files || project.files.length === 0}`. -/
def actionBar (status : Status) (filesLen : Nat) (uploading : Bool) :
    List (CardAction × Bool) :=
  match status with
  | Status.pending =>
      [(CardAction.upload, !uploading), (CardAction.generate, !(filesLen == 0))]
  | Status.processing => []
  | Status.completed =>
      [(CardAction.downloadTeaser, true), (CardAction.downloadCitations, true)]
  | Status.failed => [(CardAction.retryGenerate, true)]

/-- The set (as an ordered list) of actions rendered enabled on a card. -/
def enabledActions (status : Status) (filesLen : Nat) (uploading : Bool) :
    List CardAction :=
  ((actionBar status filesLen uploading).filter (fun a => a.2)).map (fun a => a.1)

/-- The action table exactly as the specification states it:
`pending`+empty → {upload}; `pending`+non-empty → {upload, generate};
`processing` → {}; `completed` → {download-teaser, download-citations};
`failed` → {retry-generate}. -/
def specEnabledActions (status : Status) (filesLen : Nat) : List CardAction :=
  match status with
  | Status.pending =>
      if filesLen = 0 then [CardAction.upload]
      else [CardAction.upload, CardAction.generate]
  | Status.processing => []
  | Status.completed => [CardAction.downloadTeaser, CardAction.downloadCitations]
  | Status.failed => [CardAction.retryGenerate]

/-- `setInterval(fetchProjects, 3000)` period, in milliseconds. -/
def pollPeriod : Nat := 3000

/-- Model of a JS `setInterval` callback registered at time `start` with
period `period` and cleared at time `stop`: it fires at each positive
multiple of the period after `start`, while not yet cleared. -/
def intervalFires (start period stop t : Nat) : Prop :=
  ∃ k : Nat, t = start + period * (k + 1) ∧ t < stop

/-- The times at which the mounted dashboard issues a refresh: once
immediately on mount, and then at each firing of the 3000 ms interval
until `clearInterval` runs at unmount. -/
def dashboardRefreshAt (mountT unmountT t : Nat) : Prop :=
  t = mountT ∨ intervalFires mountT pollPeriod unmountT t

/-- A concrete dashboard state used by the closed witness theorems. -/
def sampleState : ControllerState :=
  { token := some "tok"
    projects := []
    loading := true
    newProjectName := "Project Titan"
    showNewProject := true
    route := Route.dashboard
    alerts := [] }

/-- A concrete project used by the closed witness theorems. -/
def sampleProject : Project :=
  { id := 1
    company_name := "Acme"
    status := Status.pending
    files := []
    sector := none }

/-- Helper: the filename template evaluated at kind `ppt`. -/
theorem downloadFilename_ppt (c : String) :
    downloadFilename c "ppt" = c ++ "_Teaser.pptx" := by
  show c ++ "_" ++ "Teaser" ++ "." ++ "pptx" = c ++ "_Teaser.pptx"
  rw [String.append_assoc, String.append_assoc, String.append_assoc]
  rfl

/-- Helper: the filename template evaluated at kind `citation_doc`. -/
theorem downloadFilename_citation (c : String) :
    downloadFilename c "citation_doc" = c ++ "_Citations.pdf" := by
  show c ++ "_" ++ "Citations" ++ "." ++ "pdf" = c ++ "_Citations.pdf"
  rw [String.append_assoc, String.append_assoc, String.append_assoc]
  rfl

/-- C1 (counterexample): on a pending card with no files whose upload is
in flight (`uploading = true`, set by `handleFileUpload` and reflected by
`disabled={uploading}` on the file input), the enabled action set is
empty, not the claimed {upload}: the set is not a function of status and
file count alone. -/
theorem c1_upload_in_flight_counterexample :
    enabledActions Status.pending 0 true ≠ specEnabledActions Status.pending 0 := by
  decide

/-- C1 (amended): the enabled action set is a pure function of the
status, the files count and the card's upload-in-flight flag; with no
upload in flight it is exactly the claimed table, and while an upload is
in flight the upload action is additionally disabled. -/
theorem c1_action_gating_amended (st : Status) (n : Nat) (u : Bool) :
    enabledActions st n u =
      if u then (specEnabledActions st n).erase CardAction.upload
      else specEnabledActions st n := by
  cases st <;> cases u <;> cases n <;>
      simp [enabledActions, actionBar, specEnabledActions, List.erase,
        List.filter] <;>
    decide

/-- C2: overlapping refreshes — A starts, B starts, B's response lands
first, A's stale response lands last: every resolution overwrites the
cache unconditionally, so the cache ends at A's payload; in particular
with B reporting the project completed and A reporting it processing, the
final cache shows it processing. -/
theorem c2_last_resolved_wins (s : ControllerState) (tok : String)
    (h : s.token = some tok) (P : Project) (lA lB : List Project) :
    (fetchProjectsResolve (fetchProjectsResolve
        (fetchProjectsStart (fetchProjectsStart s).1).1 (ApiResult.ok lB))
      (ApiResult.ok lA)).projects = lA
    ∧ (fetchProjectsResolve (fetchProjectsResolve
        (fetchProjectsStart (fetchProjectsStart s).1).1
        (ApiResult.ok [{ P with status := Status.completed }]))
      (ApiResult.ok [{ P with status := Status.processing }])).projects
      = [{ P with status := Status.processing }] := by
  constructor <;> simp [fetchProjectsStart, fetchProjectsResolve, h]

/-- C2 witness at a concrete state and project. -/
theorem c2_last_resolved_wins_witness :
    (fetchProjectsResolve (fetchProjectsResolve
        (fetchProjectsStart (fetchProjectsStart sampleState).1).1
        (ApiResult.ok [{ sampleProject with status := Status.completed }]))
      (ApiResult.ok [{ sampleProject with status := Status.processing }])).projects
      = [{ sampleProject with status := Status.processing }] :=
  (c2_last_resolved_wins sampleState "tok" rfl sampleProject [] []).2

/-- C3 (counterexample): a 401 answering `handleGenerate` does not clear
the stored credential and does not leave the dashboard — the handler only
alerts — refuting the claim that every authenticated operation clears the
credential on 401. -/
theorem c3_generate_401_counterexample :
    (handleGenerate sampleState 1 (ApiResult.err (some 401))).1.token = some "tok"
    ∧ (handleGenerate sampleState 1 (ApiResult.err (some 401))).1.token ≠ none
    ∧ (handleGenerate sampleState 1 (ApiResult.err (some 401))).1.route
        = Route.dashboard := by
  decide

/-- C3 (amended): only the refresh clears the credential and redirects on
401 (and a refresh attempted with no credential issues no request); the
other authenticated operations (create, upload, generate, download,
delete) leave the credential in place on 401 — the 401 is only picked up
by the next polling refresh. -/
theorem c3_auth_failure_amended (s : ControllerState) (tok : String) (pid : Nat)
    (p : Project) (r : ApiResult (List Project)) (h : s.token = some tok) :
    (fetchProjects s (ApiResult.err (some 401))).1.token = none
    ∧ (fetchProjects s (ApiResult.err (some 401))).1.route = Route.login
    ∧ (fetchProjects { s with token := none } r).2 = []
    ∧ (createProject s (ApiResult.err (some 401))).1.token = s.token
    ∧ (handleFileUpload s pid true (ApiResult.err (some 401))).1.token = s.token
    ∧ (handleGenerate s pid (ApiResult.err (some 401))).1.token = s.token
    ∧ (handleDownload s p "ppt" (ApiResult.err (some 401))).1.token = s.token
    ∧ (handleDelete s p true (ApiResult.err (some 401))).1.token = s.token := by
  refine ⟨?_, ?_, rfl, ?_, rfl, rfl, rfl, rfl⟩
  · simp [fetchProjects, fetchProjectsResolve, h]
  · simp [fetchProjects, fetchProjectsResolve, h]
  · unfold createProject
    split <;> rfl

/-- C3 amended witness at a concrete state. -/
theorem c3_auth_failure_amended_witness :
    (fetchProjects sampleState (ApiResult.err (some 401))).1.token = none
    ∧ (handleGenerate sampleState 1 (ApiResult.err (some 401))).1.token
        = sampleState.token := by
  have h := c3_auth_failure_amended sampleState "tok" 1 sampleProject
    (ApiResult.ok []) rfl
  exact ⟨h.1, h.2.2.2.2.2.1⟩

/-- C4: a refresh failing with any non-401 error (network error or other
status) leaves the whole controller state — cache, credential, route —
unchanged, and the polling schedule still fires at the next tick. -/
theorem c4_transient_failure_preserves_state (s : ControllerState)
    (code : Option Nat) (h : code ≠ some 401) (m u k : Nat)
    (hk : m + pollPeriod * (k + 1) < u) :
    fetchProjectsResolve s (ApiResult.err code) = s
    ∧ dashboardRefreshAt m u (m + pollPeriod * (k + 1)) := by
  constructor
  · simp [fetchProjectsResolve, h]
  · exact Or.inr ⟨k, rfl, hk⟩

/-- C4 witness: a 500 on refresh at a concrete state, next tick at 3000. -/
theorem c4_transient_failure_witness :
    fetchProjectsResolve sampleState (ApiResult.err (some 500)) = sampleState
    ∧ dashboardRefreshAt 0 10000 3000 :=
  c4_transient_failure_preserves_state sampleState (some 500) (by decide)
    0 10000 0 (by decide)

/-- C5: a successful refresh replaces the cache wholesale with exactly the
server's list (and clears the loading flag), independent of the previous
cache — the result is a single atomic assignment, never a merge. -/
theorem c5_refresh_replaces_cache (s : ControllerState) (l : List Project) :
    fetchProjectsResolve s (ApiResult.ok l)
      = { s with projects := l, loading := false }
    ∧ (fetchProjectsResolve s (ApiResult.ok l)).projects = l := by
  exact ⟨rfl, rfl⟩

/-- C6: the dashboard refreshes once at mount, then at every interval tick
`mount + 3000·(k+1)` before unmount, never after unmount (the interval is
cleared); and each of create/upload/generate/delete fires one extra
refresh on success while download fires none. -/
theorem c6_refresh_schedule (m u : Nat) (s : ControllerState) (tok : String)
    (pid : Nat) (p : Project) (blob : List Nat)
    (htok : s.token = some tok) (hname : s.newProjectName ≠ "") :
    dashboardRefreshAt m u m
    ∧ (∀ k : Nat, m + pollPeriod * (k + 1) < u →
        dashboardRefreshAt m u (m + pollPeriod * (k + 1)))
    ∧ (∀ t : Nat, u ≤ t → t ≠ m → ¬ dashboardRefreshAt m u t)
    ∧ NetRequest.getProjects ∈ (createProject s (ApiResult.ok ())).2
    ∧ NetRequest.getProjects ∈ (handleFileUpload s pid true (ApiResult.ok ())).2
    ∧ NetRequest.getProjects ∈ (handleGenerate s pid (ApiResult.ok ())).2
    ∧ NetRequest.getProjects ∈ (handleDelete s p true (ApiResult.ok ())).2
    ∧ NetRequest.getProjects ∉ (handleDownload s p "ppt" (ApiResult.ok blob)).2.1 := by
  refine ⟨Or.inl rfl, ?_, ?_, ?_, ?_, ?_, ?_, ?_⟩
  · intro k hk
    exact Or.inr ⟨k, rfl, hk⟩
  · rintro t hu hne (rfl | ⟨k, rfl, hlt⟩)
    · exact hne rfl
    · omega
  · simp [createProject, hname, fetchProjectsStart, htok]
  · simp [handleFileUpload, fetchProjectsStart, htok]
  · simp [handleGenerate, fetchProjectsStart, htok]
  · simp [handleDelete, fetchProjectsStart, htok]
  · simp [handleDownload]

/-- C6 witness: concrete mount/unmount times and state. -/
theorem c6_refresh_schedule_witness :
    dashboardRefreshAt 0 10000 0
    ∧ NetRequest.getProjects ∈ (createProject sampleState (ApiResult.ok ())).2
    ∧ NetRequest.getProjects
        ∉ (handleDownload sampleState sampleProject "ppt" (ApiResult.ok [])).2.1 := by
  have h := c6_refresh_schedule 0 10000 sampleState "tok" 1 sampleProject []
    rfl (by decide)
  exact ⟨h.1, h.2.2.2.1, h.2.2.2.2.2.2.2⟩

/-- C7: `createProject` with an empty pending name performs no network
call and returns the state untouched, whatever response the environment
would have given. -/
theorem c7_create_empty_name_noop (s : ControllerState) (r : ApiResult Unit)
    (h : s.newProjectName = "") :
    createProject s r = (s, []) := by
  simp [createProject, h]

/-- C7 witness at a concrete state with empty name. -/
theorem c7_create_empty_name_noop_witness :
    createProject { sampleState with newProjectName := "" } (ApiResult.ok ())
      = ({ sampleState with newProjectName := "" }, []) :=
  c7_create_empty_name_noop { sampleState with newProjectName := "" }
    (ApiResult.ok ()) rfl

/-- C8: refresh is idempotent — running the whole `fetchProjects` twice
against the same fixed server response ends in the same state as running
it once, for every response (success, 401, or other failure). -/
theorem c8_refresh_idempotent (s : ControllerState) (r : ApiResult (List Project)) :
    (fetchProjects (fetchProjects s r).1 r).1 = (fetchProjects s r).1 := by
  cases hs : s.token with
  | none => simp [fetchProjects, hs]
  | some tok =>
    cases r with
    | ok l => simp [fetchProjects, fetchProjectsResolve, hs]
    | err code =>
      by_cases hc : code = some 401
      · subst hc
        simp [fetchProjects, fetchProjectsResolve, hs]
      · simp [fetchProjects, fetchProjectsResolve, hs, hc]

/-- C9: `handleDelete` without confirmation issues no request and leaves
the state untouched; with confirmation it issues exactly one delete
request, and on success it additionally fires the refresh. -/
theorem c9_delete_confirmation (s : ControllerState) (p : Project)
    (r : ApiResult Unit) (tok : String) (h : s.token = some tok) :
    handleDelete s p false r = (s, [])
    ∧ (handleDelete s p true r).2.count (NetRequest.deleteReq p.id) = 1
    ∧ NetRequest.getProjects ∈ (handleDelete s p true (ApiResult.ok ())).2 := by
  refine ⟨rfl, ?_, ?_⟩
  · cases r <;> simp [handleDelete, fetchProjectsStart, h, List.count_cons]
  · simp [handleDelete, fetchProjectsStart, h]

/-- C9 witness at a concrete state and project. -/
theorem c9_delete_confirmation_witness :
    handleDelete sampleState sampleProject false (ApiResult.ok ())
      = (sampleState, [])
    ∧ NetRequest.getProjects
        ∈ (handleDelete sampleState sampleProject true (ApiResult.ok ())).2 := by
  have h := c9_delete_confirmation sampleState sampleProject (ApiResult.ok ())
    "tok" rfl
  exact ⟨h.1, h.2.2⟩

/-- C10: the filename handed to the save-link is a pure function of the
company name and artifact kind: `ppt` saves `<company>_Teaser.pptx` and
`citation_doc` saves `<company>_Citations.pdf`, for every state, project
and blob. -/
theorem c10_download_filename (s : ControllerState) (p : Project)
    (blob : List Nat) :
    (handleDownload s p "ppt" (ApiResult.ok blob)).2.2
      = some (p.company_name ++ "_Teaser.pptx")
    ∧ (handleDownload s p "citation_doc" (ApiResult.ok blob)).2.2
      = some (p.company_name ++ "_Citations.pdf") := by
  constructor
  · simp [handleDownload, downloadFilename_ppt]
  · simp [handleDownload, downloadFilename_citation]
